import Mathlib

/-!
# Verification of the s3prl balanced weighted sampler and SUPERB ASR training loop

Shallow embedding of `src/s3prl/sampler/balanced_weighted_sampler.py` and of the
training controller in `src/example/superb_asr/train.py`, together with theorems
settling the specification claims about them.
-/

/-! ## Balanced weighted sampler (`s3prl/sampler/balanced_weighted_sampler.py`)

A dataset is embedded by its label-only view: a list holding one label per
dataset index (the sampler reads nothing else from the dataset).
`torch.Generator` and `torch.utils.data.WeightedRandomSampler` are external
library collaborators; we embed them as a concrete deterministic pseudo-random
generator (a 64-bit linear congruential generator) driving CDF-inversion
sampling with replacement, which matches their contract: `manual_seed` makes
the stream a function of the seed alone, and each draw picks an index with
probability proportional to its weight, independently of earlier draws (so
indices can repeat across draws). -/

/-- One step of the 64-bit linear congruential generator standing in for
`torch.Generator`'s stream (Knuth's MMIX multiplier and increment, mod 2^64). -/
def lcgNext (s : Nat) : Nat :=
  (6364136223846793005 * s + 1442695040888963407) % 18446744073709551616

/-- `torch.Generator().manual_seed` accepts any Python int; the generator
state is the seed's value mod 2^64. -/
def normSeed (z : Int) : Nat :=
  (z % 18446744073709551616).toNat

/-- CDF inversion: the index whose cumulative-weight interval contains `u`. -/
def pickIndex : List ℚ → ℚ → Nat
  | [], _ => 0
  | w :: ws, u => if u < w then 0 else pickIndex ws (u - w) + 1

/-- `n` weighted draws with replacement from `weights`, as
`WeightedRandomSampler(weights, n, generator=generator)` materializes them:
each draw maps the next 32 generator bits to a fraction of the total weight
and picks the corresponding index. -/
def drawSamples (weights : List ℚ) : Nat → Nat → List Nat
  | _, 0 => []
  | g, n + 1 =>
    let g1 := lcgNext g
    let u : ℚ := ((g1 % 4294967296 : Nat) : ℚ) / 4294967296 * weights.sum
    pickIndex weights u :: drawSamples weights g1 n

/-- The error taxonomy of spec §7 relevant to sampler construction (Python
exceptions are embedded as `Except`). -/
inductive SamplerError where
  | configurationError
  | dataError
deriving DecidableEq

/-- State of `BalancedWeightedSampler`: exactly the fields its `__init__`
stores.  The dataset itself is not retained — only the weights derived
from it. -/
structure BalancedWeightedSampler where
  epoch : Int
  seed : Int
  batch_size : Int
  duplicate : Nat
  weights : List ℚ
deriving DecidableEq

namespace BalancedWeightedSampler

/-- The default `get_weights` static method: a first label-only pass over the
dataset builds the label-to-count mapping `class2weight` (a `Counter`); a
second pass assigns `weight[i] = len(dataset) / class2weight[label[i]]`. -/
def get_weights {L : Type} [DecidableEq L] (dataset : List L) : List ℚ :=
  let class2weight : L → Nat := fun label => dataset.count label
  dataset.map (fun label => (dataset.length : ℚ) / (class2weight label : ℚ))

/-- `__init__(dataset, batch_size, get_weights=None, duplicate=1,
seed=12345678)`: stores the configuration and computes the weights with the
default `get_weights` (every claim concerns the default).  The body performs
no validation and contains no `raise`; the base-class `__init__` (repository
code not under `src/`) receives only the dataset and, like the `torch`
`Sampler` convention it mirrors, does not validate it.  Hence no branch
returns `.error`. -/
def init {L : Type} [DecidableEq L] (dataset : List L) (batch_size : Int)
    (duplicate : Nat) (seed : Int) : Except SamplerError BalancedWeightedSampler :=
  .ok { epoch := 0, seed := seed, batch_size := batch_size, duplicate := duplicate,
        weights := get_weights dataset }

/-- `set_epoch(epoch)`. -/
def set_epoch (s : BalancedWeightedSampler) (epoch : Int) : BalancedWeightedSampler :=
  { s with epoch := epoch }

/-- The materialized draw list of `__iter__`:
`generator.manual_seed(self.epoch + self.seed)` followed by
`indices = list(WeightedRandomSampler(self.weights,
len(self.weights) * self.duplicate, generator=generator))`. -/
def draws (s : BalancedWeightedSampler) : List Nat :=
  drawSamples s.weights (normSeed (s.epoch + s.seed)) (s.weights.length * s.duplicate)

/-- The accumulation loop of `__iter__`: append each drawn index to `batch`
in draw order and yield `batch` whenever its length reaches `batch_size`;
whatever remains in `batch` when the draws run out is never yielded. -/
def accumulateBatches (batch_size : Int) : List Nat → List Nat → List (List Nat)
  | _, [] => []
  | batch, indice :: rest =>
    let batch1 := batch ++ [indice]
    if (batch1.length : Int) = batch_size then
      batch1 :: accumulateBatches batch_size [] rest
    else
      accumulateBatches batch_size batch1 rest

/-- `__iter__`, as the list of yielded batches. -/
def iter (s : BalancedWeightedSampler) : List (List Nat) :=
  accumulateBatches s.batch_size [] s.draws

/-- `__len__`: `len(list(iter(self)))`. -/
def len (s : BalancedWeightedSampler) : Nat :=
  s.iter.length

end BalancedWeightedSampler

/-! ## Training controller (`example/superb_asr/train.py`)

The task, the dataloaders, the loss and the gradients are external
collaborators; the controller only branches on whether the clipped gradient
norm is NaN and on the step-modulo cadences.  We embed the per-step controller
behaviour with those external outcomes as inputs: `gradNormIsNaN` is the value
of `math.isnan(grad_norm)` for the step, `optimizerStep` is the parameter
update `optimizer.step()` would apply, and `cacheableResult` stands for the
step's `result.cacheable()` projection.  The task/optimizer parameters are
abstracted as a single `Int` (only whether and how they change matters to the
claims). -/

/-- The cadence arguments of `parse_args` (CLI defaults 100 / 5000 / 100). -/
structure Args where
  log_step : Nat
  eval_step : Nat
  save_step : Nat
deriving DecidableEq

/-- Controller state: `pbar.n` (the global step counter), the task/optimizer
parameters, and the histories of NaN warnings, cached results and
log / eval / checkpoint-save events, each event recorded by the
`global_step` value at which it fired. -/
structure TrainState where
  step : Nat
  params : Int
  warnings : List Nat
  cached : List Int
  loggedAt : List Nat
  evaledAt : List Nat
  savedAt : List Nat
deriving DecidableEq

/-- One iteration of the `for batch in train_dataloader` body (train.py lines
156-223): `pbar.update(1); global_step = pbar.n`; forward and backward happen
externally; the gradient norm is clipped; if it is NaN a warning is emitted
and `optimizer.step()` is skipped, otherwise it is applied; the cacheable
result is appended to the buffer; on `(global_step + 1) % log_step == 0` the
buffer is reduced, logged and cleared; on `(global_step + 1) % eval_step == 0`
the validation loader is drained under `torch.no_grad()`; on
`(global_step + 1) % save_step == 0` `task.ckpt` and `optimizer.ckpt` are
saved. -/
def trainStep (args : Args) (gradNormIsNaN : Bool) (optimizerStep : Int → Int)
    (cacheableResult : Int) (s : TrainState) : TrainState :=
  let global_step := s.step + 1
  { step := global_step
    params := if gradNormIsNaN then s.params else optimizerStep s.params
    warnings := if gradNormIsNaN then s.warnings ++ [global_step] else s.warnings
    cached := if (global_step + 1) % args.log_step = 0 then [] else s.cached ++ [cacheableResult]
    loggedAt := if (global_step + 1) % args.log_step = 0 then s.loggedAt ++ [global_step] else s.loggedAt
    evaledAt := if (global_step + 1) % args.eval_step = 0 then s.evaledAt ++ [global_step] else s.evaledAt
    savedAt := if (global_step + 1) % args.save_step = 0 then s.savedAt ++ [global_step] else s.savedAt }

/-- `n` consecutive training iterations; the external collaborators'
behaviour at the step following state `s` is given by `gradNaNAt s.step` and
`resultAt s.step`. -/
def runTrain (args : Args) (gradNaNAt : Nat → Bool) (optimizerStep : Int → Int)
    (resultAt : Nat → Int) : TrainState → Nat → TrainState
  | s, 0 => s
  | s, n + 1 => runTrain args gradNaNAt optimizerStep resultAt
      (trainStep args (gradNaNAt s.step) optimizerStep (resultAt s.step) s) n

/-- `task.ckpt` as `task.save_checkpoint` writes it: the task/model state.
No step counter is part of the saved state. -/
structure TaskCkpt where
  params : Int
deriving DecidableEq

/-- Startup (train.py lines 94-158): if `task.ckpt` exists the task is
restored from it (`Object.load_checkpoint`), otherwise a fresh task is built;
either way `pbar = tqdm(total=args.total_steps)` is constructed fresh with
`pbar.n = 0`, so the global step counter starts at zero unconditionally. -/
def resumeInit (ckpt : Option TaskCkpt) (freshParams : Int) : TrainState :=
  { step := 0
    params := match ckpt with
      | some c => c.params
      | none => freshParams
    warnings := [], cached := [], loggedAt := [], evaledAt := [], savedAt := [] }

/-- The literal loop guard of `while True:` (train.py line 154). -/
def whileTrueGuard : Bool :=
  true

/-- Whether control leaves the `while True:` loop within `n` guard
evaluations.  The loop body contains no `break` or `return`, so an exit could
only come from the guard evaluating to false. -/
def loopExitsWithin : Nat → Bool
  | 0 => false
  | n + 1 => if whileTrueGuard then loopExitsWithin n else true

/-- Number of test passes performed in a run bounded by `fuel` loop
iterations: the `with torch.no_grad():` test block after the loop (train.py
lines 225-237) drains the test dataloader exactly once when control reaches
it, and it is reached exactly when the loop exits. -/
def testPassesPerformed (fuel : Nat) : Nat :=
  if loopExitsWithin fuel then 1 else 0

/-! ## Helper lemmas -/

theorem drawSamples_length (weights : List ℚ) :
    ∀ (n g : Nat), (drawSamples weights g n).length = n := by
  intro n
  induction n with
  | zero => intro g; rfl
  | succ n ih => intro g; simp [drawSamples, ih]

theorem pickIndex_singleton (w u : ℚ) (h : u < w) : pickIndex [w] u = 0 := by
  simp [pickIndex, h]

theorem drawSamples_singleton (w : ℚ) (hw : 0 < w) :
    ∀ (n g : Nat), drawSamples [w] g n = List.replicate n 0 := by
  intro n
  induction n with
  | zero => intro g; rfl
  | succ n ih =>
    intro g
    have h32 : ((lcgNext g % 4294967296 : Nat) : ℚ) < 4294967296 := by
      exact_mod_cast Nat.mod_lt _ (by norm_num)
    have hfrac : ((lcgNext g % 4294967296 : Nat) : ℚ) / 4294967296 < 1 :=
      Bound.div_lt_one_of_pos_of_lt (by norm_num) h32
    have hu : ((lcgNext g % 4294967296 : Nat) : ℚ) / 4294967296 * w < w :=
      mul_lt_of_lt_one_left hw hfrac
    simp [drawSamples, List.sum_singleton, pickIndex_singleton _ _ hu, ih,
      List.replicate_succ]

theorem accumulateBatches_spec (k : Nat) (hk : 0 < k) :
    ∀ (l batch : List Nat), batch.length < k →
      (∀ b ∈ BalancedWeightedSampler.accumulateBatches (k : Int) batch l, b.length = k) ∧
      (BalancedWeightedSampler.accumulateBatches (k : Int) batch l).length
        = (batch.length + l.length) / k ∧
      (BalancedWeightedSampler.accumulateBatches (k : Int) batch l).flatten
        = (batch ++ l).take ((batch.length + l.length) / k * k) := by
  intro l
  induction l with
  | nil =>
    intro batch hb
    refine ⟨?_, ?_, ?_⟩
    · intro b hbmem
      simp [BalancedWeightedSampler.accumulateBatches] at hbmem
    · simp [BalancedWeightedSampler.accumulateBatches, Nat.div_eq_of_lt hb]
    · simp [BalancedWeightedSampler.accumulateBatches, Nat.div_eq_of_lt hb]
  | cons i rest ih =>
    intro batch hb
    have hlen1 : (batch ++ [i]).length = batch.length + 1 := by simp
    by_cases hc : batch.length + 1 = k
    · have hcond : ((batch ++ [i]).length : Int) = (k : Int) := by
        rw [hlen1]; exact_mod_cast hc
      have hstep : BalancedWeightedSampler.accumulateBatches (k : Int) batch (i :: rest)
          = (batch ++ [i]) :: BalancedWeightedSampler.accumulateBatches (k : Int) [] rest := by
        simp only [BalancedWeightedSampler.accumulateBatches]
        rw [if_pos hcond]
      obtain ⟨ihAll, ihLen, ihFlat⟩ := ih [] (by simpa using hk)
      have harith : batch.length + (i :: rest).length = k + rest.length := by
        simp only [List.length_cons]; omega
      refine ⟨?_, ?_, ?_⟩
      · intro b hbmem
        rw [hstep] at hbmem
        rcases List.mem_cons.mp hbmem with h1 | h2
        · rw [h1, hlen1, hc]
        · exact ihAll b h2
      · rw [hstep]
        simp only [List.length_cons]
        have harith2 : batch.length + (rest.length + 1) = k + rest.length := by omega
        rw [harith2, Nat.add_div_left _ hk, ihLen]
        simp
      · rw [hstep]
        simp only [List.flatten_cons]
        rw [ihFlat]
        simp only [List.nil_append, List.length_nil, Nat.zero_add]
        rw [harith, Nat.add_div_left _ hk]
        have hassoc : batch ++ i :: rest = (batch ++ [i]) ++ rest := by simp
        rw [hassoc]
        have hamount : (rest.length / k + 1) * k
            = (batch ++ [i]).length + rest.length / k * k := by
          rw [hlen1, hc]; ring
        rw [hamount, List.take_append]
    · have hcond : ¬ ((batch ++ [i]).length : Int) = (k : Int) := by
        rw [hlen1]; exact_mod_cast hc
      have hstep : BalancedWeightedSampler.accumulateBatches (k : Int) batch (i :: rest)
          = BalancedWeightedSampler.accumulateBatches (k : Int) (batch ++ [i]) rest := by
        simp only [BalancedWeightedSampler.accumulateBatches]
        rw [if_neg hcond]
      obtain ⟨ihAll, ihLen, ihFlat⟩ := ih (batch ++ [i]) (by rw [hlen1]; omega)
      have harith : (batch ++ [i]).length + rest.length
          = batch.length + (i :: rest).length := by
        simp only [List.length_cons, hlen1]; omega
      refine ⟨?_, ?_, ?_⟩
      · intro b hbmem
        rw [hstep] at hbmem
        exact ihAll b hbmem
      · rw [hstep, ihLen, harith]
      · rw [hstep, ihFlat, harith]
        congr 1
        simp

/-! ## Claim theorems: sampler -/

/-- Claim C4, counterexample: the claim states that construction fails with a
ConfigurationError when `batch_size <= 0` and with a DataError when the
dataset is empty; in the code `__init__` performs no validation, so
construction succeeds at `batch_size = 0` on a non-empty dataset, and also on
an empty dataset. -/
theorem c4_construction_succeeds_without_validation :
    (BalancedWeightedSampler.init ([0] : List Nat) 0 1 12345678).isOk = true ∧
    (BalancedWeightedSampler.init ([] : List Nat) 1 1 12345678).isOk = true :=
  ⟨rfl, rfl⟩

/-- Claim C4, amended: `BalancedWeightedSampler` construction never fails:
`__init__` performs no validation of `batch_size` or of the dataset, so it
succeeds for every dataset (empty included) and every `batch_size`
(non-positive included). -/
theorem c4_init_never_fails {L : Type} [DecidableEq L] (dataset : List L)
    (batch_size : Int) (duplicate : Nat) (seed : Int) :
    (BalancedWeightedSampler.init dataset batch_size duplicate seed).isOk = true :=
  rfl

/-- Claim C4, witness for the amended theorem at a concrete input. -/
theorem c4_init_never_fails_witness :
    (BalancedWeightedSampler.init ([3, 7] : List Nat) 4 2 99).isOk = true :=
  c4_init_never_fails ([3, 7] : List Nat) 4 2 99

/-- Claim C6: the batch sequence emitted by `__iter__` is a deterministic
function of the sum `epoch + seed` (the generator seed), the weight vector,
the batch size and the duplicate factor; no other state feeds it, since the
generator is constructed fresh inside `__iter__`.  In particular repeated
iteration with the same epoch set yields identical batch sequences. -/
theorem c6_iteration_deterministic (s1 s2 : BalancedWeightedSampler)
    (h : s1.epoch + s1.seed = s2.epoch + s2.seed)
    (hw : s1.weights = s2.weights)
    (hb : s1.batch_size = s2.batch_size)
    (hd : s1.duplicate = s2.duplicate) :
    BalancedWeightedSampler.iter s1 = BalancedWeightedSampler.iter s2 := by
  unfold BalancedWeightedSampler.iter BalancedWeightedSampler.draws
  rw [h, hw, hb, hd]

/-- Claim C6, witness: two samplers with the same `epoch + seed` sum (roles
of seed and epoch swapped) and the same remaining configuration emit the same
batches. -/
theorem c6_iteration_deterministic_witness :
    BalancedWeightedSampler.iter ⟨3, 5, 2, 1, [1, 2]⟩
      = BalancedWeightedSampler.iter ⟨5, 3, 2, 1, [1, 2]⟩ :=
  c6_iteration_deterministic ⟨3, 5, 2, 1, [1, 2]⟩ ⟨5, 3, 2, 1, [1, 2]⟩ rfl rfl rfl rfl

/-- Claim C7: the default weight function returns exactly one weight per
dataset index, and the weight at index `i` is
`len(dataset) / count(label(i))`, where the count is the number of dataset
items sharing item `i`'s label. -/
theorem c7_default_weights (L : Type) [DecidableEq L] (labels : List L)
    (i : Nat) (l : L) (h : labels[i]? = some l) :
    (BalancedWeightedSampler.get_weights labels).length = labels.length ∧
    (BalancedWeightedSampler.get_weights labels)[i]?
      = some ((labels.length : ℚ) / (labels.count l : ℚ)) := by
  constructor
  · simp [BalancedWeightedSampler.get_weights]
  · simp [BalancedWeightedSampler.get_weights, List.getElem?_map, h]

/-- Claim C7, witness: three items with labels 0, 0, 1; the item at index 2
has label 1, which occurs once, so its weight is `3 / 1`. -/
theorem c7_default_weights_witness :
    (BalancedWeightedSampler.get_weights ([0, 0, 1] : List Nat)).length
      = ([0, 0, 1] : List Nat).length ∧
    (BalancedWeightedSampler.get_weights ([0, 0, 1] : List Nat))[2]?
      = some ((([0, 0, 1] : List Nat).length : ℚ)
          / ((([0, 0, 1] : List Nat).count 1) : ℚ)) :=
  c7_default_weights Nat ([0, 0, 1] : List Nat) 2 1 (by decide)

/-- Claim C8: `__iter__` materializes exactly `len(weights) × duplicate`
draws (one weight per dataset index, hence `len(dataset) × duplicate`),
produced from a generator seeded with `epoch + seed`; and `__len__` is the
number of batches obtained by materializing one full draw
(`len(list(iter(self)))`). -/
theorem c8_draw_count_seed_and_len (s : BalancedWeightedSampler)
    (hw : s.weights ≠ []) (hd : 0 < s.duplicate) :
    s.draws.length = s.weights.length * s.duplicate ∧
    s.draws = drawSamples s.weights (normSeed (s.epoch + s.seed))
      (s.weights.length * s.duplicate) ∧
    s.len = s.iter.length :=
  ⟨drawSamples_length s.weights (s.weights.length * s.duplicate)
      (normSeed (s.epoch + s.seed)), rfl, rfl⟩

/-- Claim C8, witness at a concrete sampler (two items, equal weights,
duplicate 1, default seed, epoch 0). -/
theorem c8_draw_count_seed_and_len_witness :
    (BalancedWeightedSampler.draws ⟨0, 12345678, 1, 1, [2, 2]⟩).length
      = ([2, 2] : List ℚ).length * 1 ∧
    BalancedWeightedSampler.draws ⟨0, 12345678, 1, 1, [2, 2]⟩
      = drawSamples [2, 2] (normSeed (0 + 12345678)) (([2, 2] : List ℚ).length * 1) ∧
    BalancedWeightedSampler.len ⟨0, 12345678, 1, 1, [2, 2]⟩
      = (BalancedWeightedSampler.iter ⟨0, 12345678, 1, 1, [2, 2]⟩).length :=
  c8_draw_count_seed_and_len ⟨0, 12345678, 1, 1, [2, 2]⟩ (by simp) (by decide)

/-- Claim C10: with a positive batch size, every batch yielded by `__iter__`
has length exactly `batch_size`, and iteration yields exactly
`⌊len(weights) × duplicate / batch_size⌋` batches: the trailing partial group
of a draw is silently dropped and never emitted. -/
theorem c10_full_batches_and_count (s : BalancedWeightedSampler)
    (hb : 0 < s.batch_size) :
    (∀ b ∈ s.iter, (b.length : Int) = s.batch_size) ∧
    s.iter.length = s.weights.length * s.duplicate / s.batch_size.toNat := by
  have hk : ((s.batch_size.toNat : Nat) : Int) = s.batch_size :=
    Int.toNat_of_nonneg (le_of_lt hb)
  have hk0 : 0 < s.batch_size.toNat := by omega
  have hiter : s.iter
      = BalancedWeightedSampler.accumulateBatches ((s.batch_size.toNat : Nat) : Int)
          [] s.draws := by
    unfold BalancedWeightedSampler.iter
    rw [hk]
  obtain ⟨hall, hlen, _⟩ :=
    accumulateBatches_spec s.batch_size.toNat hk0 s.draws [] (by simpa using hk0)
  constructor
  · intro b hbmem
    rw [hiter] at hbmem
    rw [← hk]
    exact_mod_cast hall b hbmem
  · rw [hiter, hlen]
    simp [BalancedWeightedSampler.draws, drawSamples_length]

/-- Claim C10, witness: three draws at batch size 2 yield one full batch of
length 2 (the trailing draw is dropped). -/
theorem c10_full_batches_and_count_witness :
    (∀ b ∈ BalancedWeightedSampler.iter ⟨0, 9, 2, 1, [1, 1, 1]⟩,
        (b.length : Int) = (2 : Int)) ∧
    (BalancedWeightedSampler.iter ⟨0, 9, 2, 1, [1, 1, 1]⟩).length
      = ([1, 1, 1] : List ℚ).length * 1 / (2 : Int).toNat :=
  c10_full_batches_and_count ⟨0, 9, 2, 1, [1, 1, 1]⟩ (by decide)

/-- Claim C3, counterexample: sampling is with replacement and the
accumulation loop performs no deduplication, so an index can repeat inside a
single batch.  With a one-item dataset every draw is index 0, so with
`batch_size = 2` and `duplicate = 2` the single emitted batch is `[0, 0]`,
which repeats index 0. -/
theorem c3_duplicate_index_within_batch :
    BalancedWeightedSampler.iter
        ⟨0, 0, 2, 2, BalancedWeightedSampler.get_weights ([5] : List Nat)⟩
      = [[0, 0]] ∧
    ¬ ([0, 0] : List Nat).Nodup := by
  constructor
  · have hw : BalancedWeightedSampler.get_weights ([5] : List Nat) = [1] := by
      simp [BalancedWeightedSampler.get_weights]
    show BalancedWeightedSampler.accumulateBatches 2 []
        (drawSamples (BalancedWeightedSampler.get_weights ([5] : List Nat))
          (normSeed (0 + 0))
          ((BalancedWeightedSampler.get_weights ([5] : List Nat)).length * 2))
      = [[0, 0]]
    rw [hw]
    rw [drawSamples_singleton 1 (by norm_num) ([1].length * 2) (normSeed (0 + 0))]
    decide
  · decide

/-- Claim C3, amended: within-batch repetition is possible; what the
accumulation loop does guarantee is that the yielded batches are consecutive,
non-overlapping, order-preserving slices of the with-replacement draw
sequence, with no deduplication: their concatenation is exactly the prefix of
the draw sequence covered by full batches.  An index therefore repeats inside
a batch exactly when it is drawn more than once inside one batch-sized
window, which sampling with replacement permits. -/
theorem c3_batches_are_consecutive_slices (s : BalancedWeightedSampler)
    (hb : 0 < s.batch_size) :
    s.iter.flatten
      = s.draws.take (s.draws.length / s.batch_size.toNat * s.batch_size.toNat) := by
  have hk : ((s.batch_size.toNat : Nat) : Int) = s.batch_size :=
    Int.toNat_of_nonneg (le_of_lt hb)
  have hk0 : 0 < s.batch_size.toNat := by omega
  have hiter : s.iter
      = BalancedWeightedSampler.accumulateBatches ((s.batch_size.toNat : Nat) : Int)
          [] s.draws := by
    unfold BalancedWeightedSampler.iter
    rw [hk]
  obtain ⟨_, _, hflat⟩ :=
    accumulateBatches_spec s.batch_size.toNat hk0 s.draws [] (by simpa using hk0)
  rw [hiter, hflat]
  simp

/-- Claim C3, witness for the amended theorem at a concrete sampler. -/
theorem c3_batches_are_consecutive_slices_witness :
    (BalancedWeightedSampler.iter ⟨1, 4, 3, 1, [1, 1]⟩).flatten
      = (BalancedWeightedSampler.draws ⟨1, 4, 3, 1, [1, 1]⟩).take
          ((BalancedWeightedSampler.draws ⟨1, 4, 3, 1, [1, 1]⟩).length
            / (3 : Int).toNat * (3 : Int).toNat) :=
  c3_batches_are_consecutive_slices ⟨1, 4, 3, 1, [1, 1]⟩ (by decide)

/-! ## Claim theorems: training controller -/

/-- Claim C1 (evaluation of the code at the failing input): when `task.ckpt`
exists, startup restores the task parameters from it, but the global step
counter lives in a freshly constructed progress bar and restarts at zero —
`task.save_checkpoint` stores no step counter at all — so after resuming from
a checkpoint written at any earlier step, the first processed batch gets
`global_step = 1`, not the step at which the checkpoint was saved. -/
theorem c1_resume_restores_task_but_resets_step :
    (resumeInit (some ⟨42⟩) 0).params = 42 ∧
    (resumeInit (some ⟨42⟩) 0).step = 0 ∧
    (runTrain ⟨100, 5000, 100⟩ (fun _ => false) (fun p => p + 1) (fun _ => 0)
        (resumeInit (some ⟨42⟩) 0) 1).step = 1 :=
  ⟨rfl, rfl, rfl⟩

/-- Claim C2: for a step whose gradient norm is NaN the controller emits a
warning and skips `optimizer.step()` — the parameters are unchanged by the
update — while `pbar.update(1)` has already advanced the global step counter
by one; for a step with a non-NaN gradient norm the optimizer step is
applied. -/
theorem c2_nan_guard (args : Args) (optimizerStep : Int → Int)
    (cacheableResult : Int) (s : TrainState) :
    ((trainStep args true optimizerStep cacheableResult s).params = s.params
      ∧ (trainStep args true optimizerStep cacheableResult s).warnings
          = s.warnings ++ [s.step + 1]
      ∧ (trainStep args true optimizerStep cacheableResult s).step = s.step + 1)
    ∧ ((trainStep args false optimizerStep cacheableResult s).params
          = optimizerStep s.params
      ∧ (trainStep args false optimizerStep cacheableResult s).step = s.step + 1) := by
  refine ⟨⟨?_, ?_, ?_⟩, ?_, ?_⟩ <;> simp [trainStep]

/-- Claim C5 (evaluation of the code): the `while True:` training loop never
exits within any number of guard evaluations — its guard is the constant
`True` and its body contains no `break` — so the post-loop no-gradient test
pass is dead code: zero test passes are performed in any run, not one. -/
theorem c5_finalizing_test_is_unreachable :
    ∀ fuel : Nat, testPassesPerformed fuel = 0 ∧ loopExitsWithin fuel = false := by
  intro fuel
  induction fuel with
  | zero => exact ⟨rfl, rfl⟩
  | succ n ih =>
    have h : loopExitsWithin (n + 1) = false := by
      simp [loopExitsWithin, whileTrueGuard, ih.2]
    exact ⟨by simp [testPassesPerformed, h], h⟩

set_option maxRecDepth 4000 in
/-- Claim C9, counterexample: with `save_step = 100` and the run stopped at
global step 250, the save cadence `(global_step + 1) % 100 == 0` does not
fire at steps 100 and 200: the recorded firing steps differ from
`[100, 200]`. -/
theorem c9_checkpoints_not_at_steps_100_200 :
    (runTrain ⟨100, 5000, 100⟩ (fun _ => false) (fun p => p + 1) (fun _ => 0)
        (resumeInit none 0) 250).savedAt ≠ [100, 200] := by
  decide

set_option maxRecDepth 4000 in
/-- Claim C9, amended: with `save_step = 100` and the run stopped at global
step 250, the save cadence fires exactly twice, at global steps 99 and 199
(the two steps below 250 where `(global_step + 1) % 100 == 0` holds); each
firing writes the task and optimizer checkpoints to the same fixed
`task.ckpt` / `optimizer.ckpt` paths. -/
theorem c9_save_cadence_fires_at_99_and_199 :
    (runTrain ⟨100, 5000, 100⟩ (fun _ => false) (fun p => p + 1) (fun _ => 0)
        (resumeInit none 0) 250).savedAt = [99, 199] := by
  decide
